import Mathlib

/-!
Verification of the sensor fusion and AQI derivation pipeline of the
home-assistant-purpleair integration.

The Python modules under custom_components/purpleair are embedded shallowly:
 - numeric sensor values are rationals (ℚ); Python's float arithmetic on the
   decimal constants involved here is exact for every concrete input used in
   the theorems below, so the rational embedding agrees with the code on them;
 - timestamps are integers (seconds);
 - Python None is Option.none, fallible code returns Except;
 - Python's built-in round (round-half-to-even, "banker's rounding") is
   modelled by pyRound below.

Embedded functions keep the names of their Python sources where Lean permits:
 - purple_air_api/util.py: calc_aqi, get_pm_reading, apply_corrections,
   build_sensors, calculate_sensor_values, add_aqi_calculations,
   clear_sensor_warning, warn_sensor_channel_bad, _clean_expired_cache_entries
 - purple_air_api/v1/util.py: add_aqi_calculations (the EPA-correction part,
   embedded as v1EpaCorrection)
 - purple_air_api/const.py and v1/aqi_breakpoints.py: AQI_BREAKPOINTS (the
   two tables are textually identical; one embedding serves both).

Station metadata fields that are copied through the pipeline unchanged and
read by no computation (device_location, version, type, lat, lon, rssi, adc,
uptime) are omitted from the record structures; every field that any
computation reads or that can raise on access is present.
-/

namespace PurpleAir

/-- Python's built-in round() on an exact rational: round half to even. -/
def pyRound (q : ℚ) : ℤ :=
  let f : ℤ := ⌊q⌋
  let r : ℚ := q - f
  if r < 1/2 then f
  else if 1/2 < r then f + 1
  else if f % 2 = 0 then f else f + 1

/-- Python's round(q, n): round to n decimal places, half to even. -/
def roundTo (n : ℕ) (q : ℚ) : ℚ :=
  (pyRound (q * 10 ^ n) : ℚ) / 10 ^ n

/-- round(q, 1) as used throughout util.py. -/
def round1 (q : ℚ) : ℚ := roundTo 1 q

/-- round(q, 5) as used for the EPA cache averages. -/
def round5 (q : ℚ) : ℚ := roundTo 5 q

/-- Python truthiness of an optional numeric: None and 0 are falsy.
Models the walrus-conditionals "if x := expr:" on float-or-None values. -/
def truthy (o : Option ℚ) : Option ℚ :=
  match o with
  | some v => if v = 0 then none else some v
  | none => none

/-- AqiBreakpoint from purple_air_api/model.py. -/
structure AqiBreakpoint where
  pm_low : ℚ
  pm_high : ℚ
  aqi_low : ℚ
  aqi_high : ℚ
deriving DecidableEq, Repr

/-- The pm2_5 entry of AQI_BREAKPOINTS (purple_air_api/const.py lines 7-19;
v1/aqi_breakpoints.py is textually identical). The first row really is
duplicated in the source. -/
def pm25Breakpoints : List AqiBreakpoint :=
  [ ⟨500.5, 999.9, 501, 999⟩,
    ⟨500.5, 999.9, 501, 999⟩,
    ⟨350.5, 500.4, 401, 500⟩,
    ⟨250.5, 350.4, 301, 400⟩,
    ⟨150.5, 250.4, 201, 300⟩,
    ⟨55.5, 150.4, 151, 200⟩,
    ⟨35.5, 55.4, 101, 150⟩,
    ⟨12.1, 35.4, 51, 100⟩,
    ⟨0, 12.0, 0, 50⟩ ]

/-- AQI_BREAKPOINTS: a mapping from pollutant kind to breakpoint table.
Only pm2_5 is registered. -/
def AQI_BREAKPOINTS (index : String) : Option (List AqiBreakpoint) :=
  if index = "pm2_5" then some pm25Breakpoints else none

/-- The generator-with-next search in calc_aqi:
next((bp for bp in table if bp.pm_low <= value <= bp.pm_high), None). -/
def findBreakpoint (value : ℚ) : List AqiBreakpoint → Option AqiBreakpoint
  | [] => none
  | bp :: rest =>
    if bp.pm_low ≤ value ∧ value ≤ bp.pm_high then some bp
    else findBreakpoint value rest

/-- calc_aqi from purple_air_api/util.py lines 172-196: piecewise-linear
interpolation over the breakpoint table, None for an unknown pollutant kind
or an out-of-domain concentration. -/
def calc_aqi (value : ℚ) (index : String) : Option ℤ :=
  match AQI_BREAKPOINTS index with
  | none => none
  | some aqi_bp_index =>
    match findBreakpoint value aqi_bp_index with
    | none => none
    | some aqi_bp =>
      let aqi_range := aqi_bp.aqi_high - aqi_bp.aqi_low
      let pm_range := aqi_bp.pm_high - aqi_bp.pm_low
      let aqi_c := value - aqi_bp.pm_low
      some (pyRound ((aqi_range / pm_range) * aqi_c + aqi_bp.aqi_low))

/-- JSON_PROPERTIES from purple_air_api/const.py lines 29-32. -/
def JSON_PROPERTIES : List String :=
  ["pm1_0_atm", "pm2_5_atm", "pm10_0_atm", "humidity", "temp_f", "pressure"]

/-- Modelled from the spec: MAX_PM_READING is imported by util.py from
const.py but the definition is missing from the sources; the spec describes
it only as "a fixed validity ceiling (a sentinel value representing sensor
saturation/error)". Every claim uses it symbolically (readings are compared
against it, never against its numeral), so a representative ceiling of 1000
is used. -/
def MAX_PM_READING : ℚ := 1000

/-- Modelled from the spec: PM_PROPERTIES is imported by util.py from
const.py but the definition is missing from the sources; the spec identifies
the particulate metrics as the three particulate-matter size classes, which
are the three pm attributes of JSON_PROPERTIES. -/
def PM_PROPERTIES : List String := ["pm1_0_atm", "pm2_5_atm", "pm10_0_atm"]

/-- clear_sensor_warning from util.py lines 245-248: remove the station from
the warned list if present (Python list.remove of the first occurrence,
guarded by membership). -/
def clear_sensor_warning (warned : List String) (sensorId : String) : List String :=
  warned.erase sensorId

/-- warn_sensor_channel_bad from util.py lines 292-310. Returns the new
warned list together with the warnings actually emitted to the log, each a
(station id, channel, data point) triple. -/
def warn_sensor_channel_bad (warned : List String) (sensorId prop channel : String) :
    List String × List (String × String × String) :=
  if sensorId ∈ warned then (warned, [])
  else (warned ++ [sensorId], [(sensorId, channel, prop)])

/-- Result of one get_pm_reading call: the (value, confidence) pair the
Python function returns, plus the warned-station list and emitted warnings
that the function updates through module-level state. -/
structure PmMergeResult where
  value : Option ℚ
  confidence : String
  warned : List String
  warnings : List (String × String × String)

/-- get_pm_reading from util.py lines 257-289. -/
def get_pm_reading (warned : List String) (sensorId prop : String) (a_value b_value : ℚ) :
    PmMergeResult :=
  let a_valid := a_value < MAX_PM_READING
  let b_valid := b_value < MAX_PM_READING
  let diff := |a_value - b_value|
  if prop ∉ PM_PROPERTIES then
    { value := some (round1 ((a_value + b_value) / 2)), confidence := "good",
      warned := clear_sensor_warning warned sensorId, warnings := [] }
  else if a_valid ∧ b_valid then
    { value := some (round1 ((a_value + b_value) / 2)),
      confidence := if diff < 45 then "good" else "questionable",
      warned := clear_sensor_warning warned sensorId, warnings := [] }
  else if a_valid ∧ ¬b_valid then
    let w := warn_sensor_channel_bad warned sensorId prop "B"
    { value := some (round1 a_value), confidence := "single - b channel bad",
      warned := w.1, warnings := w.2 }
  else if ¬a_valid ∧ b_valid then
    let w := warn_sensor_channel_bad warned sensorId prop "A"
    { value := some (round1 b_value), confidence := "single - a channel bad",
      warned := w.1, warnings := w.2 }
  else
    let w := warn_sensor_channel_bad warned sensorId prop "A and B"
    { value := none, confidence := "invalid", warned := w.1, warnings := w.2 }

/-- The bad-channel confidence labels: exactly the outcomes for which
get_pm_reading calls warn_sensor_channel_bad. -/
def isBadConfidence (c : String) : Bool :=
  c = "single - a channel bad" || c = "single - b channel bad" || c = "invalid"

/-- PurpleAirApiSensorReading from purple_air_api/model.py, restricted to
the fields the pipeline computes. The confidence and status dictionaries are
modelled as partial maps from attribute name. -/
structure Reading where
  humidity : Option ℚ := none
  pm10_0_atm : Option ℚ := none
  pm1_0_atm : Option ℚ := none
  pm2_5_atm : Option ℚ := none
  pm2_5_atm_aqi : Option ℤ := none
  pm2_5_atm_aqi_raw : Option ℤ := none
  pm2_5_cf_1 : Option ℚ := none
  pressure : Option ℚ := none
  temp_f : Option ℚ := none
  confidence : String → Option String := fun _ => none
  status : String → Option String := fun _ => none

/-- get_confidence from model.py lines 108-110: dict get with default "". -/
def Reading.get_confidence (r : Reading) (attr : String) : String :=
  (r.confidence attr).getD ""

/-- The confidence-dictionary part of set_value (model.py lines 124-147):
the confidence entry is written only when the argument is truthy (a
non-empty string). -/
def Reading.setConfidence (r : Reading) (attr : String) (conf : Option String) : Reading :=
  match conf with
  | some c =>
    if c = "" then r
    else { r with confidence := fun k => if k = attr then some c else r.confidence k }
  | none => r

/-- set_value from model.py lines 124-147 for the six raw-metric attributes
(the only ℚ-valued attributes the pipeline writes). The hasattr guard never
fires on these names. -/
def Reading.setValue (r : Reading) (attr : String) (value : Option ℚ)
    (conf : Option String := none) : Reading :=
  let r1 :=
    if attr = "pm1_0_atm" then { r with pm1_0_atm := value }
    else if attr = "pm2_5_atm" then { r with pm2_5_atm := value }
    else if attr = "pm10_0_atm" then { r with pm10_0_atm := value }
    else if attr = "humidity" then { r with humidity := value }
    else if attr = "temp_f" then { r with temp_f := value }
    else if attr = "pressure" then { r with pressure := value }
    else r
  r1.setConfidence attr conf

/-- set_value for the two integer AQI attributes. -/
def Reading.setAqiValue (r : Reading) (attr : String) (value : Option ℤ)
    (conf : Option String := none) : Reading :=
  let r1 :=
    if attr = "pm2_5_atm_aqi" then { r with pm2_5_atm_aqi := value }
    else if attr = "pm2_5_atm_aqi_raw" then { r with pm2_5_atm_aqi_raw := value }
    else r
  r1.setConfidence attr conf

/-- set_status from model.py lines 120-122. -/
def Reading.setStatus (r : Reading) (attr s : String) : Reading :=
  { r with status := fun k => if k = attr then some s else r.status k }

/-- apply_corrections from util.py lines 100-128. The conditions are the
Python walrus-truthiness tests: a missing value and a value of 0 both skip
the correction. -/
def apply_corrections (r : Reading) : Reading :=
  let r1 := match truthy r.temp_f with
    | some temperature => { r with temp_f := some (temperature - 8) }
    | none => r
  match truthy r1.humidity with
  | some humidity => { r1 with humidity := some (humidity + 4) }
  | none => r1

/-- PurpleAirApiSensorData from model.py, restricted to the fields any
computation reads: the id and label (used in warnings), the two required
timestamps (whose extraction from a raw record can raise), and the temporary
per-channel dictionaries. A channel dictionary, when present, maps exactly
the JSON_PROPERTIES keys. -/
structure PASensor where
  pa_sensor_id : String
  label : String
  last_seen : ℤ
  last_update : ℤ
  chanA : Option (String → Option ℚ) := none
  chanB : Option (String → Option ℚ) := none

/-- One conjunct of both_channels_have_data (model.py lines 78-85): the
channel dictionary exists and not all of its values are None. -/
def hasChannelData (c : Option (String → Option ℚ)) : Bool :=
  match c with
  | none => false
  | some f => JSON_PROPERTIES.any (fun p => (f p).isSome)

/-- both_channels_have_data from model.py lines 78-85. -/
def both_channels_have_data (s : PASensor) : Bool :=
  hasChannelData s.chanA && hasChannelData s.chanB

/-- One raw JSON record as consumed by build_sensors (util.py lines
131-169): the identifying and linkage keys, the keys whose access can raise
KeyError, the label, and the per-metric values. A field of none models an
absent key. -/
structure RawRecord where
  ID : Option ℤ := none
  ParentID : Option ℤ := none
  Label : Option String := none
  LastSeen : Option ℤ := none
  LastUpdateCheck : Option ℤ := none
  props : String → Option ℚ := fun _ => none

/-- result.get("ParentID", result["ID"]) followed by str():
raises KeyError when both keys are absent. -/
def recordKey (r : RawRecord) : Except String String :=
  match r.ParentID with
  | some p => .ok (toString p)
  | none =>
    match r.ID with
    | some i => .ok (toString i)
    | none => .error "KeyError: ID"

/-- The channel dictionary build_sensors writes for a record: exactly the
JSON_PROPERTIES keys, each holding result.get(prop). -/
def recordChannelData (r : RawRecord) : String → Option ℚ :=
  fun p => if p ∈ JSON_PROPERTIES then r.props p else none

def lookupStation : List (String × PASensor) → String → Option PASensor
  | [], _ => none
  | kv :: rest, k => if kv.1 = k then some kv.2 else lookupStation rest k

def updateStation (l : List (String × PASensor)) (k : String) (f : PASensor → PASensor) :
    List (String × PASensor) :=
  l.map (fun kv => if kv.1 = k then (kv.1, f kv.2) else kv)

/-- The new-station branch of build_sensors (util.py lines 143-159):
label is str(result.get("Label")) (Python renders a missing label as
"None"); the two timestamp keys are accessed with [] and raise when
absent. -/
def newStation (key : String) (r : RawRecord) : Except String PASensor :=
  match r.LastSeen with
  | none => .error "KeyError: LastSeen"
  | some seen =>
    match r.LastUpdateCheck with
    | none => .error "KeyError: LastUpdateCheck"
    | some upd =>
      .ok { pa_sensor_id := key, label := r.Label.getD "None",
            last_seen := seen, last_update := upd }

/-- The channel write of build_sensors (util.py lines 161-167): the record
is channel B when "ParentID" is present, A otherwise. -/
def writeChannel (l : List (String × PASensor)) (key : String) (r : RawRecord) :
    List (String × PASensor) :=
  updateStation l key (fun s =>
    if r.ParentID.isSome then { s with chanB := some (recordChannelData r) }
    else { s with chanA := some (recordChannelData r) })

def build_sensors_loop : List RawRecord → List (String × PASensor) →
    Except String (List (String × PASensor))
  | [], acc => .ok acc
  | r :: rest, acc =>
    match recordKey r with
    | .error e => .error e
    | .ok key =>
      match (if (lookupStation acc key).isSome then .ok acc
             else (newStation key r).map (fun s => acc ++ [(key, s)])) with
      | .error e => .error e
      | .ok acc1 => build_sensors_loop rest (writeChannel acc1 key r)

/-- build_sensors from util.py lines 131-169, as a fallible function: an
uncaught KeyError is modelled as Except.error. The station dictionary is an
insertion-ordered association list. -/
def build_sensors (results : List RawRecord) : Except String (List (String × PASensor)) :=
  build_sensors_loop results []

/-- One iteration of the dual-channel loop of calculate_sensor_values
(util.py lines 216-230). -/
def dualChannelStep (sensorId : String) (chanA chanB : String → Option ℚ)
    (acc : Reading × List String) (prop : String) : Reading × List String :=
  match truthy (chanA prop) with
  | some a_value =>
    match truthy (chanB prop) with
    | some b_value =>
      let m := get_pm_reading acc.2 sensorId prop a_value b_value
      (acc.1.setValue prop m.value (some m.confidence), m.warned)
    | none => (acc.1.setValue prop (some (round1 a_value)) (some "single"), acc.2)
  | none => (acc.1.setValue prop none none, acc.2)

/-- The dual-channel loop of calculate_sensor_values (util.py lines
214-230). -/
def mergeDualChannel (warned : List String) (sensorId : String)
    (chanA chanB : String → Option ℚ) : Reading × List String :=
  JSON_PROPERTIES.foldl (dualChannelStep sensorId chanA chanB) (({} : Reading), warned)

/-- One iteration of the single-channel loop of calculate_sensor_values
(util.py lines 232-237). -/
def singleChannelStep (chanA : String → Option ℚ) (r : Reading) (prop : String) : Reading :=
  match truthy (chanA prop) with
  | some a_value => r.setValue prop (some (round1 a_value)) (some "good")
  | none => r.setValue prop none none

/-- The single-channel loop of calculate_sensor_values (util.py lines
231-237). -/
def mergeSingleChannel (chanA : String → Option ℚ) : Reading :=
  JSON_PROPERTIES.foldl (singleChannelStep chanA) ({} : Reading)

/-- The per-sensor body of calculate_sensor_values (util.py lines 207-242):
merge the channels, then apply_corrections. clear_temporary_data only drops
the channel dictionaries, which the produced Reading does not carry. -/
def calculate_sensor_values_one (warned : List String) (s : PASensor) :
    Reading × List String :=
  let chanA := s.chanA.getD (fun _ => none)
  let step :=
    if both_channels_have_data s then
      mergeDualChannel warned s.pa_sensor_id chanA (s.chanB.getD (fun _ => none))
    else
      (mergeSingleChannel chanA, warned)
  (apply_corrections step.1, step.2)

/-- calculate_sensor_values from util.py lines 199-242, threading the
module-level warned list through the per-sensor calls. -/
def calculate_sensor_values (sensors : List (String × PASensor)) (warned : List String) :
    List (String × Reading) × List String :=
  sensors.foldl (fun acc kv =>
    let one := calculate_sensor_values_one acc.2 kv.2
    (acc.1 ++ [(kv.1, one.1)], one.2))
    ([], warned)

/-- EpaAvgValue from model.py lines 204-216; the timestamp is the creation
time in seconds. -/
structure EpaAvgValue where
  hum : ℚ
  pm25 : ℚ
  timestamp : ℤ

/-- The EPA value cache (create_epa_value_cache, util.py lines 251-254): a
defaultdict of per-station queues, empty by default. -/
def EpaCache := String → List EpaAvgValue

def create_epa_value_cache : EpaCache := fun _ => []

def cacheSet (c : EpaCache) (k : String) (q : List EpaAvgValue) : EpaCache :=
  fun k2 => if k2 = k then q else c k2

/-- deque(maxlen=12).append: evict the oldest entry when the queue is full.
Queues built by this model never exceed 12 entries. -/
def dequeAppend12 (q : List EpaAvgValue) (x : EpaAvgValue) : List EpaAvgValue :=
  (if q.length ≥ 12 then q.tail else q) ++ [x]

/-- _clean_expired_cache_entries from util.py lines 313-327 (identical in
v1/util.py lines 286-297): count the entries older than one hour and pop
that many from the left. -/
def clean_expired_cache_entries (now : ℤ) (q : List EpaAvgValue) : List EpaAvgValue :=
  let expired_count := (q.filter (fun v => v.timestamp < now - 3600)).length
  q.drop expired_count

/-- The cache update shared by both add_aqi_calculations versions: append
the new sample (timestamped now), then clean expired entries. -/
def processEpaSample (now : ℤ) (q : List EpaAvgValue) (hum pm25 : ℚ) : List EpaAvgValue :=
  clean_expired_cache_entries now (dequeAppend12 q ⟨hum, pm25, now⟩)

/-- The aqi_status text (util.py lines 91-94 and v1/util.py lines 79-82). -/
def epaStatus (count : ℕ) : String :=
  if count < 12 then "calculating (" ++ toString ((12 - count) * 5) ++ " mins left)"
  else "stable"

/-- The EPA-corrected branch of the legacy add_aqi_calculations (util.py
lines 68-97): gated on explicitly non-None PM2.5 CF=1 and humidity, appends
the sample, cleans the queue, and applies the old single correction formula
0.534x - 0.0844h + 5.604. -/
def add_aqi_epa_part (now : ℤ) (cache : EpaCache) (sensorId confidence : String)
    (r1 : Reading) : Reading × EpaCache :=
  match r1.pm2_5_cf_1, r1.humidity with
  | some pm25, some hum =>
    let epa_avg := processEpaSample now (cache sensorId) hum pm25
    let humidity_avg := round5 ((epa_avg.map EpaAvgValue.hum).sum / epa_avg.length)
    let pm25cf1_avg := round5 ((epa_avg.map EpaAvgValue.pm25).sum / epa_avg.length)
    let pm25_corrected := round1 ((0.534 * pm25cf1_avg) - (0.0844 * humidity_avg) + 5.604)
    let pm25_corrected_aqi := calc_aqi pm25_corrected "pm2_5"
    let r2 := (r1.setAqiValue "pm2_5_atm_aqi" pm25_corrected_aqi
        (some confidence)).setStatus "pm2_5_atm_aqi" (epaStatus epa_avg.length)
    (r2, cacheSet cache sensorId epa_avg)
  | _, _ => (r1, cache)

/-- The per-sensor body of the legacy add_aqi_calculations (util.py lines
49-97): the raw AQI from the truthy fused PM2.5, then the EPA-corrected
branch. -/
def add_aqi_one (now : ℤ) (cache : EpaCache) (sensorId : String) (r : Reading) :
    Reading × EpaCache :=
  let confidence := r.get_confidence "pm2_5_atm"
  let r1 := match truthy r.pm2_5_atm with
    | some pm25atm => r.setAqiValue "pm2_5_atm_aqi_raw" (calc_aqi pm25atm "pm2_5")
        (some confidence)
    | none => r
  add_aqi_epa_part now cache sensorId confidence r1

/-- add_aqi_calculations from util.py lines 32-97, over the station
dictionary, threading the cache. -/
def add_aqi_calculations (now : ℤ) (items : List (String × Reading)) (cache : EpaCache) :
    List (String × Reading) × EpaCache :=
  items.foldl (fun acc kv =>
    let one := add_aqi_one now acc.2 kv.1 kv.2
    (acc.1 ++ [(kv.1, one.1)], one.2))
    ([], cache)

/-- Outcome of the EPA-correction branch of the v1 add_aqi_calculations. -/
structure V1EpaOut where
  corrected : ℚ
  aqi : Option ℤ
  status : String
  queue : List EpaAvgValue

/-- The EPA-corrected AQI computation of the v1 add_aqi_calculations
(v1/util.py lines 52-85): rolling averages rounded to 5 places, the
piecewise wildfire correction (quadratic branch when the averaged PM2.5 CF=1
exceeds 343), clamped at 0 and rounded to 1 place. -/
def v1EpaCorrection (now : ℤ) (q0 : List EpaAvgValue) (hum pm25 : ℚ) : V1EpaOut :=
  let epa_avg := processEpaSample now q0 hum pm25
  let humidity_avg := round5 ((epa_avg.map EpaAvgValue.hum).sum / epa_avg.length)
  let pm25cf1_avg := round5 ((epa_avg.map EpaAvgValue.pm25).sum / epa_avg.length)
  let base := (0.52 * pm25cf1_avg) - (0.086 * humidity_avg) + 5.75
  let corr := if pm25cf1_avg > 343
    then (0.46 * pm25cf1_avg) + ((393 / 1000000) * pm25cf1_avg * pm25cf1_avg) + 2.97
    else base
  let pm25_corrected := round1 (max 0 corr)
  { corrected := pm25_corrected, aqi := calc_aqi pm25_corrected "pm2_5",
    status := epaStatus epa_avg.length, queue := epa_avg }

/-- A v1 SensorReading restricted to the fields add_aqi_calculations
reads. -/
structure V1Sensor where
  pa_sensor_id : String
  pm2_5_atm : Option ℚ := none
  pm2_5_cf_1 : Option ℚ := none
  humidity : Option ℚ := none

/-- The additional values the v1 add_aqi_calculations stores on a sensor. -/
structure V1Outputs where
  pm2_5_aqi_instant : Option (Option ℤ) := none
  pm2_5_aqi_epa : Option (Option ℤ) := none
  pm2_5_aqi_epa_status : Option String := none

/-- The per-sensor body of the v1 add_aqi_calculations (v1/util.py lines
36-85). Both gates are explicit is-not-None checks. -/
def v1_add_aqi_one (now : ℤ) (cache : EpaCache) (s : V1Sensor) : V1Outputs × EpaCache :=
  let instant : Option (Option ℤ) := match s.pm2_5_atm with
    | some pm => some (calc_aqi pm "pm2_5")
    | none => none
  match s.pm2_5_cf_1, s.humidity with
  | some pm25, some hum =>
    let o := v1EpaCorrection now (cache s.pa_sensor_id) hum pm25
    ({ pm2_5_aqi_instant := instant, pm2_5_aqi_epa := some o.aqi,
       pm2_5_aqi_epa_status := some o.status },
     cacheSet cache s.pa_sensor_id o.queue)
  | _, _ => ({ pm2_5_aqi_instant := instant }, cache)

/-- get_value from model.py lines 116-118, for the six raw-metric
attributes. -/
def Reading.getValue (r : Reading) (attr : String) : Option ℚ :=
  if attr = "pm1_0_atm" then r.pm1_0_atm
  else if attr = "pm2_5_atm" then r.pm2_5_atm
  else if attr = "pm10_0_atm" then r.pm10_0_atm
  else if attr = "humidity" then r.humidity
  else if attr = "temp_f" then r.temp_f
  else if attr = "pressure" then r.pressure
  else none

/-- A single-channel station used as a concrete input: channel A reports
pm2_5_atm 30 and pm1_0_atm 0, no channel-B record exists. -/
def soloChanA : String → Option ℚ := fun p =>
  if p = "pm2_5_atm" then some 30 else if p = "pm1_0_atm" then some 0 else none

def soloSensor : PASensor :=
  { pa_sensor_id := "7", label := "L", last_seen := 0, last_update := 0,
    chanA := some soloChanA, chanB := none }

/-- A well-formed raw record (establishes station "100"). -/
def okRecord : RawRecord :=
  { ID := some 100, LastSeen := some 0, LastUpdateCheck := some 0 }

/-- A malformed raw record: neither "ID" nor "ParentID" is present. -/
def badRecord : RawRecord := {}

/-- Channel-A record of the end-to-end scenario for station "100". -/
def recordA : RawRecord :=
  { ID := some 100, LastSeen := some 0, LastUpdateCheck := some 0,
    props := fun p =>
      if p = "pm2_5_atm" then some 30
      else if p = "pm1_0_atm" then some 10
      else if p = "pm10_0_atm" then some 40
      else if p = "humidity" then some 45
      else if p = "temp_f" then some 70
      else none }

/-- Channel-B record of the end-to-end scenario, linked to station "100". -/
def recordB : RawRecord :=
  { ID := some 101, ParentID := some 100,
    props := fun p =>
      if p = "pm2_5_atm" then some 32
      else if p = "pm1_0_atm" then some 11
      else if p = "pm10_0_atm" then some 41
      else none }

def lookupReading : List (String × Reading) → String → Option Reading
  | [], _ => none
  | kv :: rest, k => if kv.1 = k then some kv.2 else lookupReading rest k

/-- The full legacy pipeline of PurpleAirApi.update (purple_air_api/
__init__.py lines 88-91) run on the end-to-end scenario batch at time 0 with
a fresh cache and an empty warned list, projected to station "100". -/
def scenarioResult : Option Reading :=
  match build_sensors [recordA, recordB] with
  | .error _ => none
  | .ok sensors =>
    let cs := calculate_sensor_values sensors []
    let aq := add_aqi_calculations 0 cs.1 create_epa_value_cache
    lookupReading aq.1 "100"

/-! ## Theorems -/

/-- C1: for every station and particulate metric where both channels report
a value, get_pm_reading returns: both below MAX_PM_READING → fused
round((A+B)/2, 1) with confidence good when |A-B| < 45 and questionable
otherwise; only A below → round(A,1), "single - b channel bad"; only B below
→ round(B,1), "single - a channel bad"; neither below → None, "invalid". -/
theorem get_pm_reading_cases (warned : List String) (sensorId prop : String) (a b : ℚ)
    (hp : prop ∈ PM_PROPERTIES) :
    ((a < MAX_PM_READING ∧ b < MAX_PM_READING) →
      (get_pm_reading warned sensorId prop a b).value = some (round1 ((a + b) / 2)) ∧
      (get_pm_reading warned sensorId prop a b).confidence =
        (if |a - b| < 45 then "good" else "questionable")) ∧
    ((a < MAX_PM_READING ∧ ¬b < MAX_PM_READING) →
      (get_pm_reading warned sensorId prop a b).value = some (round1 a) ∧
      (get_pm_reading warned sensorId prop a b).confidence = "single - b channel bad") ∧
    ((¬a < MAX_PM_READING ∧ b < MAX_PM_READING) →
      (get_pm_reading warned sensorId prop a b).value = some (round1 b) ∧
      (get_pm_reading warned sensorId prop a b).confidence = "single - a channel bad") ∧
    ((¬a < MAX_PM_READING ∧ ¬b < MAX_PM_READING) →
      (get_pm_reading warned sensorId prop a b).value = none ∧
      (get_pm_reading warned sensorId prop a b).confidence = "invalid") := by
  have hp' : ¬prop ∉ PM_PROPERTIES := not_not_intro hp
  refine ⟨fun h => ?_, fun h => ?_, fun h => ?_, fun h => ?_⟩ <;>
    simp [get_pm_reading, hp', h.1, h.2]

/-- Witness for C1 at concrete inputs: pm2_5_atm is particulate, 30 and 32
are below the ceiling, and the merge yields 31.0 with confidence good. -/
theorem get_pm_reading_cases_witness :
    ("pm2_5_atm" ∈ PM_PROPERTIES) ∧
    (get_pm_reading [] "100" "pm2_5_atm" 30 32).value = some 31 ∧
    (get_pm_reading [] "100" "pm2_5_atm" 30 32).confidence = "good" := by
  have hp : "pm2_5_atm" ∈ PM_PROPERTIES := by simp [PM_PROPERTIES]
  have h := (get_pm_reading_cases [] "100" "pm2_5_atm" 30 32 hp).1
    ⟨by norm_num [MAX_PM_READING], by norm_num [MAX_PM_READING]⟩
  refine ⟨hp, ?_, ?_⟩
  · rw [h.1]; norm_num [round1, roundTo, pyRound]
  · rw [h.2]; norm_num

/-- C2: the pinned AQI calculator values, and None for every concentration
under an unregistered pollutant kind. -/
theorem calc_aqi_pinned_values :
    calc_aqi 0 "pm2_5" = some 0 ∧
    calc_aqi 12.0 "pm2_5" = some 50 ∧
    calc_aqi 12.1 "pm2_5" = some 51 ∧
    calc_aqi 35.4 "pm2_5" = some 100 ∧
    calc_aqi 500.5 "pm2_5" = some 501 ∧
    calc_aqi 1000 "pm2_5" = none ∧
    ∀ v : ℚ, calc_aqi v "unknown_kind" = none := by
  refine ⟨?_, ?_, ?_, ?_, ?_, ?_, fun v => rfl⟩ <;>
    norm_num [calc_aqi, AQI_BREAKPOINTS, pm25Breakpoints, findBreakpoint, pyRound]

/-- C10: warning de-duplication, stated for one get_pm_reading call from an
arbitrary warned-list state (the state after any prefix of calls; the code
keeps the list duplicate-free since it appends only when absent). When the
merge outcome is a bad-channel condition: a station not yet in the warned
list is appended and exactly one warning is emitted for this station, metric
and channel; a station already in the list stays and nothing is emitted.
When the outcome is non-bad, the station is no longer in the list and
nothing is emitted — so a station warns at most once per station (hence per
station+metric) until it recovers. -/
theorem warn_dedup (warned : List String) (sensorId prop : String) (a b : ℚ)
    (hp : prop ∈ PM_PROPERTIES) (hnd : warned.Nodup) :
    (isBadConfidence (get_pm_reading warned sensorId prop a b).confidence = true →
      (sensorId ∉ warned →
        (get_pm_reading warned sensorId prop a b).warned = warned ++ [sensorId] ∧
        (get_pm_reading warned sensorId prop a b).warnings.length = 1) ∧
      (sensorId ∈ warned →
        (get_pm_reading warned sensorId prop a b).warned = warned ∧
        (get_pm_reading warned sensorId prop a b).warnings = [])) ∧
    (isBadConfidence (get_pm_reading warned sensorId prop a b).confidence = false →
      sensorId ∉ (get_pm_reading warned sensorId prop a b).warned ∧
      (get_pm_reading warned sensorId prop a b).warnings = []) := by
  have hp' : ¬prop ∉ PM_PROPERTIES := not_not_intro hp
  by_cases h1 : a < MAX_PM_READING ∧ b < MAX_PM_READING
  · constructor
    · intro hbad
      exfalso
      by_cases hd : |a - b| < 45 <;>
        simp [get_pm_reading, hp', h1, hd, isBadConfidence] at hbad
    · intro _
      by_cases hd : |a - b| < 45 <;>
        simp [get_pm_reading, hp', h1, hd, clear_sensor_warning,
          hnd.not_mem_erase]
  · by_cases h2 : a < MAX_PM_READING
    · have h2b : ¬b < MAX_PM_READING := fun hb => h1 ⟨h2, hb⟩
      constructor
      · intro _
        constructor <;> intro hmem <;>
          simp [get_pm_reading, hp', h1, h2, h2b, warn_sensor_channel_bad, hmem]
      · intro hbad
        simp [get_pm_reading, hp', h1, h2, h2b, isBadConfidence] at hbad
    · by_cases h3 : b < MAX_PM_READING
      · constructor
        · intro _
          constructor <;> intro hmem <;>
            simp [get_pm_reading, hp', h1, h2, h3, warn_sensor_channel_bad, hmem]
        · intro hbad
          simp [get_pm_reading, hp', h1, h2, h3, isBadConfidence] at hbad
      · constructor
        · intro _
          constructor <;> intro hmem <;>
            simp [get_pm_reading, hp', h1, h2, h3, warn_sensor_channel_bad, hmem]
        · intro hbad
          simp [get_pm_reading, hp', h1, h2, h3, isBadConfidence] at hbad

/-- Witness for C10: a fresh bad-channel condition (channel B at the
ceiling) warns once and registers the station; hypotheses are discharged at
pm2_5_atm on the empty warned list. -/
theorem warn_dedup_witness :
    ("pm2_5_atm" ∈ PM_PROPERTIES) ∧ ([] : List String).Nodup ∧
    (get_pm_reading [] "100" "pm2_5_atm" 30 MAX_PM_READING).warned = ["100"] ∧
    (get_pm_reading [] "100" "pm2_5_atm" 30 MAX_PM_READING).warnings.length = 1 := by
  have hp : "pm2_5_atm" ∈ PM_PROPERTIES := by simp [PM_PROPERTIES]
  have hbad : isBadConfidence
      (get_pm_reading [] "100" "pm2_5_atm" 30 MAX_PM_READING).confidence = true := by
    norm_num [get_pm_reading, PM_PROPERTIES, MAX_PM_READING, warn_sensor_channel_bad,
      isBadConfidence]
  have h := ((warn_dedup [] "100" "pm2_5_atm" 30 MAX_PM_READING hp List.nodup_nil).1
    hbad).1 (by simp)
  exact ⟨hp, List.nodup_nil, by simpa using h.1, h.2⟩

/-- Counterexample to C6: a present temperature of 0 (and humidity of 0) is
left unchanged by apply_corrections — the Python conditions are truthiness
tests, and 0.0 is falsy — whereas the claim requires 0 to be corrected to -8
(resp. 4) like any other present value. -/
theorem apply_corrections_zero_uncorrected :
    (apply_corrections { temp_f := some 0, humidity := some 0 }).temp_f = some 0 ∧
    (apply_corrections { temp_f := some 0, humidity := some 0 }).humidity = some 0 ∧
    some (0 : ℚ) ≠ some (-8 : ℚ) ∧ some (0 : ℚ) ≠ some (4 : ℚ) := by
  refine ⟨?_, ?_, by norm_num, by norm_num⟩ <;> norm_num [apply_corrections, truthy]

lemma apply_corrections_temp_eq (r : Reading) :
    (apply_corrections r).temp_f =
      match truthy r.temp_f with
      | some t => some (t - 8)
      | none => r.temp_f := by
  simp only [apply_corrections]
  rcases h1 : truthy r.temp_f with _ | t <;> simp only [h1] <;>
    rcases truthy _ with _ | h <;> rfl

lemma apply_corrections_hum_eq (r : Reading) :
    (apply_corrections r).humidity =
      match truthy r.humidity with
      | some h => some (h + 4)
      | none => r.humidity := by
  simp only [apply_corrections]
  rcases h1 : truthy r.temp_f with _ | t <;> simp only [h1] <;>
    rcases h2 : truthy r.humidity with _ | h <;> simp_all

/-- C6 as amended: apply_corrections subtracts 8 from a present nonzero
temperature, adds 4 to a present nonzero humidity, and leaves an absent
value unchanged; a present value of 0 is falsy in the walrus condition and
is also left unchanged. -/
theorem apply_corrections_truthiness (r : Reading) :
    (r.temp_f = none → (apply_corrections r).temp_f = none) ∧
    (r.temp_f = some 0 → (apply_corrections r).temp_f = some 0) ∧
    (∀ v : ℚ, r.temp_f = some v → v ≠ 0 →
      (apply_corrections r).temp_f = some (v - 8)) ∧
    (r.humidity = none → (apply_corrections r).humidity = none) ∧
    (r.humidity = some 0 → (apply_corrections r).humidity = some 0) ∧
    (∀ v : ℚ, r.humidity = some v → v ≠ 0 →
      (apply_corrections r).humidity = some (v + 4)) := by
  refine ⟨fun ht => ?_, fun ht => ?_, fun v ht hv => ?_,
    fun hh => ?_, fun hh => ?_, fun v hh hv => ?_⟩
  · rw [apply_corrections_temp_eq]; simp [truthy, ht]
  · rw [apply_corrections_temp_eq]; simp [truthy, ht]
  · rw [apply_corrections_temp_eq]; simp [truthy, ht, hv]
  · rw [apply_corrections_hum_eq]; simp [truthy, hh]
  · rw [apply_corrections_hum_eq]; simp [truthy, hh]
  · rw [apply_corrections_hum_eq]; simp [truthy, hh, hv]

/-- Witness for C6 (amended): 70°F becomes 62 and 45% becomes 49. -/
theorem apply_corrections_truthiness_witness :
    (apply_corrections { temp_f := some 70, humidity := some 45 }).temp_f = some 62 ∧
    (apply_corrections { temp_f := some 70, humidity := some 45 }).humidity = some 49 := by
  have h := apply_corrections_truthiness { temp_f := some 70, humidity := some 45 }
  constructor
  · rw [h.2.2.1 70 rfl (by norm_num)]; norm_num
  · rw [h.2.2.2.2.2 45 rfl (by norm_num)]; norm_num

/-- C3: for a station with non-null PM2.5 CF=1 and humidity, the v1
add_aqi_calculations computes the EPA-corrected PM2.5 from the rolling
cache averages (rounded to 5 places) with the linear formula when the
averaged PM2.5 CF=1 is at most 343 and the quadratic formula above 343,
clamps at 0, rounds to 1 place, and feeds the result to the AQI
calculator. -/
theorem v1_epa_correction_formula (now : ℤ) (cache : EpaCache) (s : V1Sensor)
    (pm25 hum : ℚ) (hcf : s.pm2_5_cf_1 = some pm25) (hhum : s.humidity = some hum) :
    (v1_add_aqi_one now cache s).1.pm2_5_aqi_epa =
      some (calc_aqi (round1 (max 0
        (if round5 (((processEpaSample now (cache s.pa_sensor_id) hum pm25).map
              EpaAvgValue.pm25).sum /
            (processEpaSample now (cache s.pa_sensor_id) hum pm25).length) ≤ 343
         then 0.52 * round5 (((processEpaSample now (cache s.pa_sensor_id) hum pm25).map
              EpaAvgValue.pm25).sum /
            (processEpaSample now (cache s.pa_sensor_id) hum pm25).length)
            - 0.086 * round5 (((processEpaSample now (cache s.pa_sensor_id) hum pm25).map
              EpaAvgValue.hum).sum /
            (processEpaSample now (cache s.pa_sensor_id) hum pm25).length) + 5.75
         else 0.46 * round5 (((processEpaSample now (cache s.pa_sensor_id) hum pm25).map
              EpaAvgValue.pm25).sum /
            (processEpaSample now (cache s.pa_sensor_id) hum pm25).length)
            + 0.000393 * round5 (((processEpaSample now (cache s.pa_sensor_id) hum pm25).map
              EpaAvgValue.pm25).sum /
            (processEpaSample now (cache s.pa_sensor_id) hum pm25).length) ^ 2 + 2.97)))
        "pm2_5") ∧
    (v1_add_aqi_one now cache s).2 s.pa_sensor_id =
      processEpaSample now (cache s.pa_sensor_id) hum pm25 := by
  have key : (v1_add_aqi_one now cache s) =
      (let o := v1EpaCorrection now (cache s.pa_sensor_id) hum pm25
       ({ pm2_5_aqi_instant := match s.pm2_5_atm with
            | some pm => some (calc_aqi pm "pm2_5")
            | none => none,
          pm2_5_aqi_epa := some o.aqi, pm2_5_aqi_epa_status := some o.status },
        cacheSet cache s.pa_sensor_id o.queue)) := by
    rw [v1_add_aqi_one, hcf, hhum]
  rw [key]
  constructor
  · show some (v1EpaCorrection now (cache s.pa_sensor_id) hum pm25).aqi = _
    rw [v1EpaCorrection]
    by_cases hb : round5 (((processEpaSample now (cache s.pa_sensor_id) hum pm25).map
        EpaAvgValue.pm25).sum /
        (processEpaSample now (cache s.pa_sensor_id) hum pm25).length) ≤ 343
    · rw [if_pos hb, if_neg (not_lt.mpr hb)]
    · rw [if_neg hb, if_pos (lt_of_not_le hb)]
      norm_num
      ring_nf
  · show cacheSet cache s.pa_sensor_id
        (v1EpaCorrection now (cache s.pa_sensor_id) hum pm25).queue s.pa_sensor_id = _
    simp [cacheSet, v1EpaCorrection]

/-- Witness for C3: one sample (humidity 50, PM2.5 CF=1 20) in a fresh
cache averages to itself; 0.52*20 - 0.086*50 + 5.75 = 11.85 rounds (half to
even) to 11.8, and calculate_aqi(11.8) = 49. -/
theorem v1_epa_correction_formula_witness :
    ({ pa_sensor_id := "1", pm2_5_cf_1 := some 20, humidity := some 50 } :
        V1Sensor).pm2_5_cf_1 = some 20 ∧
    ({ pa_sensor_id := "1", pm2_5_cf_1 := some 20, humidity := some 50 } :
        V1Sensor).humidity = some 50 ∧
    (v1_add_aqi_one 0 create_epa_value_cache
      { pa_sensor_id := "1", pm2_5_cf_1 := some 20, humidity := some 50 }).1.pm2_5_aqi_epa =
      some (some 49) := by
  refine ⟨rfl, rfl, ?_⟩
  have h := (v1_epa_correction_formula 0 create_epa_value_cache
    { pa_sensor_id := "1", pm2_5_cf_1 := some 20, humidity := some 50 } 20 50 rfl rfl).1
  rw [h]
  norm_num [processEpaSample, create_epa_value_cache, dequeAppend12,
    clean_expired_cache_entries, round5, round1, roundTo, pyRound, calc_aqi,
    AQI_BREAKPOINTS, pm25Breakpoints, findBreakpoint]

/-! ### Cache lemmas (claim C4) -/

lemma dequeAppend12_length_le (q : List EpaAvgValue) (x : EpaAvgValue)
    (h : q.length ≤ 12) : (dequeAppend12 q x).length ≤ 12 := by
  unfold dequeAppend12
  split <;> simp [List.length_tail] <;> omega

lemma mem_dequeAppend12 (q : List EpaAvgValue) (x v : EpaAvgValue)
    (hv : v ∈ dequeAppend12 q x) : v ∈ q ∨ v = x := by
  unfold dequeAppend12 at hv
  split at hv
  · rcases List.mem_append.mp hv with h2 | h2
    · exact Or.inl (List.mem_of_mem_tail h2)
    · exact Or.inr (List.mem_singleton.mp h2)
  · rcases List.mem_append.mp hv with h2 | h2
    · exact Or.inl h2
    · exact Or.inr (List.mem_singleton.mp h2)

lemma dequeAppend12_pairwise (q : List EpaAvgValue) (x : EpaAvgValue)
    (hp : q.Pairwise (fun u v => u.timestamp ≤ v.timestamp))
    (hx : ∀ v ∈ q, v.timestamp ≤ x.timestamp) :
    (dequeAppend12 q x).Pairwise (fun u v => u.timestamp ≤ v.timestamp) := by
  unfold dequeAppend12
  split
  · refine List.pairwise_append.mpr ⟨hp.sublist (List.tail_sublist q),
      List.pairwise_singleton _ _, ?_⟩
    intro a ha b hb
    rw [List.mem_singleton.mp hb]
    exact hx a (List.mem_of_mem_tail ha)
  · refine List.pairwise_append.mpr ⟨hp, List.pairwise_singleton _ _, ?_⟩
    intro a ha b hb
    rw [List.mem_singleton.mp hb]
    exact hx a ha

lemma clean_expired_no_old (now : ℤ) (q : List EpaAvgValue)
    (hp : q.Pairwise (fun u v => u.timestamp ≤ v.timestamp)) :
    ∀ v ∈ clean_expired_cache_entries now q, ¬v.timestamp < now - 3600 := by
  induction q with
  | nil => simp [clean_expired_cache_entries]
  | cons x xs ih =>
    rcases List.pairwise_cons.mp hp with ⟨hx, hxs⟩
    by_cases hold : x.timestamp < now - 3600
    · have hstep : clean_expired_cache_entries now (x :: xs) =
          clean_expired_cache_entries now xs := by
        simp [clean_expired_cache_entries, List.filter_cons, hold]
      rw [hstep]
      exact ih hxs
    · have hall : ∀ v ∈ x :: xs, ¬v.timestamp < now - 3600 := by
        intro v hv
        rcases List.mem_cons.mp hv with rfl | hv'
        · exact hold
        · exact fun hlt => hold (lt_of_le_of_lt (hx v hv') hlt)
      have hfil : (x :: xs).filter (fun v => decide (v.timestamp < now - 3600)) = [] := by
        rw [List.filter_eq_nil_iff]
        intro a ha
        simpa using hall a ha
      have hstep : clean_expired_cache_entries now (x :: xs) = x :: xs := by
        simp [clean_expired_cache_entries, hfil]
      rw [hstep]
      exact hall

lemma clean_expired_sublist (now : ℤ) (q : List EpaAvgValue) :
    (clean_expired_cache_entries now q).Sublist q := by
  unfold clean_expired_cache_entries
  exact List.drop_sublist _ _

lemma processEpaSample_length_le (now : ℤ) (q : List EpaAvgValue) (hum pm25 : ℚ)
    (h : q.length ≤ 12) : (processEpaSample now q hum pm25).length ≤ 12 := by
  unfold processEpaSample
  exact le_trans ((clean_expired_sublist _ _).length_le)
    (dequeAppend12_length_le q _ h)

lemma processEpaSample_pairwise (now : ℤ) (q : List EpaAvgValue) (hum pm25 : ℚ)
    (hp : q.Pairwise (fun u v => u.timestamp ≤ v.timestamp))
    (hpast : ∀ v ∈ q, v.timestamp ≤ now) :
    (processEpaSample now q hum pm25).Pairwise (fun u v => u.timestamp ≤ v.timestamp) := by
  unfold processEpaSample
  exact (dequeAppend12_pairwise q ⟨hum, pm25, now⟩ hp hpast).sublist
    (clean_expired_sublist _ _)

lemma processEpaSample_past (now : ℤ) (q : List EpaAvgValue) (hum pm25 : ℚ)
    (hpast : ∀ v ∈ q, v.timestamp ≤ now) :
    ∀ v ∈ processEpaSample now q hum pm25, v.timestamp ≤ now := by
  intro v hv
  have hv2 := (clean_expired_sublist now _).subset hv
  rcases mem_dequeAppend12 q _ v hv2 with h | rfl
  · exact hpast v h
  · exact le_refl _

lemma processEpaSample_no_old (now : ℤ) (q : List EpaAvgValue) (hum pm25 : ℚ)
    (hp : q.Pairwise (fun u v => u.timestamp ≤ v.timestamp))
    (hpast : ∀ v ∈ q, v.timestamp ≤ now) :
    ∀ v ∈ processEpaSample now q hum pm25, ¬v.timestamp < now - 3600 :=
  clean_expired_no_old now _ (dequeAppend12_pairwise q ⟨hum, pm25, now⟩ hp hpast)

lemma add_aqi_one_cache_cases (now : ℤ) (cache : EpaCache) (sid : String) (r : Reading) :
    (add_aqi_one now cache sid r).2 = cache ∨
    ∃ hum pm25, (add_aqi_one now cache sid r).2 =
      cacheSet cache sid (processEpaSample now (cache sid) hum pm25) := by
  have hepa : ∀ (conf : String) (r1 : Reading),
      (add_aqi_epa_part now cache sid conf r1).2 = cache ∨
      ∃ hum pm25, (add_aqi_epa_part now cache sid conf r1).2 =
        cacheSet cache sid (processEpaSample now (cache sid) hum pm25) := by
    intro conf r1
    unfold add_aqi_epa_part
    rcases h1 : r1.pm2_5_cf_1 with _ | pm <;> rcases h2 : r1.humidity with _ | hum
    · exact Or.inl rfl
    · exact Or.inl rfl
    · exact Or.inl rfl
    · exact Or.inr ⟨hum, pm, rfl⟩
  unfold add_aqi_one
  exact hepa _ _

lemma add_aqi_cache_fold (now : ℤ) (items : List (String × Reading)) (cache : EpaCache) :
    (add_aqi_calculations now items cache).2 =
      items.foldl (fun c kv => (add_aqi_one now c kv.1 kv.2).2) cache := by
  have h : ∀ (its : List (String × Reading)) (acc : List (String × Reading))
      (c : EpaCache),
      (its.foldl (fun a kv =>
        (a.1 ++ [(kv.1, (add_aqi_one now a.2 kv.1 kv.2).1)],
          (add_aqi_one now a.2 kv.1 kv.2).2)) (acc, c)).2 =
      its.foldl (fun c2 kv => (add_aqi_one now c2 kv.1 kv.2).2) c := by
    intro its
    induction its with
    | nil => intro acc c; rfl
    | cons kv rest ih => intro acc c; exact ih _ _
  exact h items [] cache

/-- Counterexample to C4 as stated: eviction happens only for stations that
receive a new sample during the call. With an empty batch, a queue holding a
sample 10000 - 0 > 3600 seconds old survives an add_aqi_calculations call
untouched, so an over-an-hour-old sample does remain in a queue. -/
theorem epa_cache_stale_station :
    (add_aqi_calculations 10000 []
        (fun id => if id = "S" then [⟨50, 20, 0⟩] else [])).2 "S" =
      [(⟨50, 20, 0⟩ : EpaAvgValue)] ∧
    ((0 : ℤ) < 10000 - 3600) ∧
    [(⟨50, 20, 0⟩ : EpaAvgValue)].Pairwise (fun u v => u.timestamp ≤ v.timestamp) := by
  refine ⟨?_, by norm_num, List.pairwise_singleton _ _⟩
  rfl

/-- C4 as amended: after an add_aqi_calculations call at time now on a cache
whose queues all hold at most 12 samples, appended in non-decreasing
timestamp order and not from the future, every queue again holds at most 12
samples, and every queue either is exactly as before the call (its station
got no new sample) or holds no sample more than 3600 seconds older than
now. -/
theorem epa_cache_bounded_and_fresh (now : ℤ) (items : List (String × Reading))
    (cache : EpaCache)
    (hlen : ∀ id, (cache id).length ≤ 12)
    (hsort : ∀ id, (cache id).Pairwise (fun u v => u.timestamp ≤ v.timestamp))
    (hpast : ∀ id, ∀ v ∈ cache id, v.timestamp ≤ now) :
    ∀ id, ((add_aqi_calculations now items cache).2 id).length ≤ 12 ∧
      ((add_aqi_calculations now items cache).2 id = cache id ∨
        ∀ v ∈ (add_aqi_calculations now items cache).2 id,
          ¬v.timestamp < now - 3600) := by
  rw [add_aqi_cache_fold]
  induction items generalizing cache with
  | nil => exact fun id => ⟨hlen id, Or.inl rfl⟩
  | cons kv rest ih =>
    intro id
    simp only [List.foldl_cons]
    rcases add_aqi_one_cache_cases now cache kv.1 kv.2 with heq | ⟨hum, pm, heq⟩
    · rw [heq]
      exact ih cache hlen hsort hpast id
    · have hlen1 : ∀ i, ((add_aqi_one now cache kv.1 kv.2).2 i).length ≤ 12 := by
        intro i
        rw [heq]
        unfold cacheSet
        by_cases hi : i = kv.1
        · rw [if_pos hi]
          exact processEpaSample_length_le now _ hum pm (hlen kv.1)
        · rw [if_neg hi]
          exact hlen i
      have hsort1 : ∀ i, ((add_aqi_one now cache kv.1 kv.2).2 i).Pairwise
          (fun u v => u.timestamp ≤ v.timestamp) := by
        intro i
        rw [heq]
        unfold cacheSet
        by_cases hi : i = kv.1
        · rw [if_pos hi]
          exact processEpaSample_pairwise now _ hum pm (hsort kv.1) (hpast kv.1)
        · rw [if_neg hi]
          exact hsort i
      have hpast1 : ∀ i, ∀ v ∈ (add_aqi_one now cache kv.1 kv.2).2 i,
          v.timestamp ≤ now := by
        intro i
        rw [heq]
        unfold cacheSet
        by_cases hi : i = kv.1
        · rw [if_pos hi]
          exact processEpaSample_past now _ hum pm (hpast kv.1)
        · rw [if_neg hi]
          exact hpast i
      have hstep : ∀ i, (add_aqi_one now cache kv.1 kv.2).2 i = cache i ∨
          ∀ v ∈ (add_aqi_one now cache kv.1 kv.2).2 i,
            ¬v.timestamp < now - 3600 := by
        intro i
        rw [heq]
        unfold cacheSet
        by_cases hi : i = kv.1
        · rw [if_pos hi]
          exact Or.inr (processEpaSample_no_old now _ hum pm (hsort kv.1) (hpast kv.1))
        · rw [if_neg hi]
          exact Or.inl rfl
      rcases ih ((add_aqi_one now cache kv.1 kv.2).2) hlen1 hsort1 hpast1 id
        with ⟨hL, hOr⟩
      refine ⟨hL, ?_⟩
      rcases hOr with heq2 | hclean
      · rw [heq2]
        exact hstep id
      · exact Or.inr hclean

/-- Witness for C4 (amended): one station reporting (humidity 50, PM2.5
CF=1 20) against a fresh empty cache at time 0; the hypotheses hold
trivially for the empty cache and the station's queue ends bounded. -/
theorem epa_cache_bounded_and_fresh_witness :
    (∀ id, (create_epa_value_cache id).length ≤ 12) ∧
    (((add_aqi_calculations 0 [("1", { pm2_5_cf_1 := some 20, humidity := some 50 })]
        create_epa_value_cache).2 "1").length ≤ 12) := by
  have h := epa_cache_bounded_and_fresh 0
    [("1", { pm2_5_cf_1 := some 20, humidity := some 50 })] create_epa_value_cache
    (fun id => by simp [create_epa_value_cache])
    (fun id => by simp [create_epa_value_cache])
    (fun id v hv => by simp [create_epa_value_cache] at hv)
  exact ⟨fun id => by simp [create_epa_value_cache], (h "1").1⟩

/-! ### Breakpoint coverage (claim C7) -/

/-- Counterexample to C7 as stated: the table's segments leave gaps between
consecutive bands; 12.05 lies strictly between pm_high = 12.0 of the lowest
band and pm_low = 12.1 of the next, so calc_aqi returns None although
0 ≤ 12.05 ≤ 999.9. -/
theorem aqi_gap_at_12_05 :
    calc_aqi 12.05 "pm2_5" = none ∧ (0 : ℚ) ≤ 12.05 ∧ (12.05 : ℚ) ≤ 999.9 := by
  refine ⟨?_, by norm_num, by norm_num⟩
  norm_num [calc_aqi, AQI_BREAKPOINTS, pm25Breakpoints, findBreakpoint]

lemma findBreakpoint_isSome (value : ℚ) (l : List AqiBreakpoint)
    (h : ∃ bp ∈ l, bp.pm_low ≤ value ∧ value ≤ bp.pm_high) :
    (findBreakpoint value l).isSome = true := by
  induction l with
  | nil =>
    rcases h with ⟨bp, hmem, _⟩
    exact absurd hmem (List.not_mem_nil bp)
  | cons bp rest ih =>
    unfold findBreakpoint
    by_cases hc : bp.pm_low ≤ value ∧ value ≤ bp.pm_high
    · rw [if_pos hc]; rfl
    · rw [if_neg hc]
      apply ih
      rcases h with ⟨bp2, hmem, hb⟩
      rcases List.mem_cons.mp hmem with rfl | hmem2
      · exact absurd hb hc
      · exact ⟨bp2, hmem2, hb⟩

lemma calc_aqi_pm25_isSome (value : ℚ)
    (h : ∃ bp ∈ pm25Breakpoints, bp.pm_low ≤ value ∧ value ≤ bp.pm_high) :
    (calc_aqi value "pm2_5").isSome = true := by
  rcases ho : findBreakpoint value pm25Breakpoints with _ | bp
  · have hs := findBreakpoint_isSome value _ h
    rw [ho] at hs
    simp at hs
  · simp [calc_aqi, show AQI_BREAKPOINTS "pm2_5" = some pm25Breakpoints from rfl, ho]

lemma tenth_mono {n m : ℕ} (h : n ≤ m) : (n : ℚ) / 10 ≤ (m : ℚ) / 10 := by
  have h2 : (n : ℚ) ≤ (m : ℚ) := by exact_mod_cast h
  linarith

/-- C7 as amended: the table is gap-free over concentrations that are whole
multiples of 0.1 (the only values the pipeline feeds it, all inputs being
rounded to one decimal place): for every n ≤ 9999 the concentration n/10
falls in some segment and calc_aqi returns an integer. -/
theorem aqi_breakpoints_cover_tenths (n : ℕ) (hn : n ≤ 9999) :
    (calc_aqi ((n : ℚ) / 10) "pm2_5").isSome = true := by
  apply calc_aqi_pm25_isSome
  by_cases h1 : n ≤ 120
  · refine ⟨⟨0, 12.0, 0, 50⟩, by simp [pm25Breakpoints], by positivity, ?_⟩
    have := tenth_mono h1
    norm_num at this ⊢
    linarith
  · by_cases h2 : n ≤ 354
    · refine ⟨⟨12.1, 35.4, 51, 100⟩, by simp [pm25Breakpoints], ?_, ?_⟩ <;>
        [have := tenth_mono (show 121 ≤ n by omega);
         have := tenth_mono h2] <;> norm_num at this ⊢ <;> linarith
    · by_cases h3 : n ≤ 554
      · refine ⟨⟨35.5, 55.4, 101, 150⟩, by simp [pm25Breakpoints], ?_, ?_⟩ <;>
          [have := tenth_mono (show 355 ≤ n by omega);
           have := tenth_mono h3] <;> norm_num at this ⊢ <;> linarith
      · by_cases h4 : n ≤ 1504
        · refine ⟨⟨55.5, 150.4, 151, 200⟩, by simp [pm25Breakpoints], ?_, ?_⟩ <;>
            [have := tenth_mono (show 555 ≤ n by omega);
             have := tenth_mono h4] <;> norm_num at this ⊢ <;> linarith
        · by_cases h5 : n ≤ 2504
          · refine ⟨⟨150.5, 250.4, 201, 300⟩, by simp [pm25Breakpoints], ?_, ?_⟩ <;>
              [have := tenth_mono (show 1505 ≤ n by omega);
               have := tenth_mono h5] <;> norm_num at this ⊢ <;> linarith
          · by_cases h6 : n ≤ 3504
            · refine ⟨⟨250.5, 350.4, 301, 400⟩, by simp [pm25Breakpoints], ?_, ?_⟩ <;>
                [have := tenth_mono (show 2505 ≤ n by omega);
                 have := tenth_mono h6] <;> norm_num at this ⊢ <;> linarith
            · by_cases h7 : n ≤ 5004
              · refine ⟨⟨350.5, 500.4, 401, 500⟩, by simp [pm25Breakpoints], ?_, ?_⟩ <;>
                  [have := tenth_mono (show 3505 ≤ n by omega);
                   have := tenth_mono h7] <;> norm_num at this ⊢ <;> linarith
              · refine ⟨⟨500.5, 999.9, 501, 999⟩, by simp [pm25Breakpoints], ?_, ?_⟩ <;>
                  [have := tenth_mono (show 5005 ≤ n by omega);
                   have := tenth_mono hn] <;> norm_num at this ⊢ <;> linarith

/-- Witness for C7 (amended) at n = 123: 12.3 is in-domain and the lookup
succeeds. -/
theorem aqi_breakpoints_cover_tenths_witness :
    123 ≤ 9999 ∧ (calc_aqi (((123 : ℕ) : ℚ) / 10) "pm2_5").isSome = true :=
  ⟨by norm_num, aqi_breakpoints_cover_tenths 123 (by norm_num)⟩

/-! ### Malformed records (claim C9) -/

lemma build_sensors_loop_error (rs : List RawRecord) :
    ∀ acc, (∃ r ∈ rs, r.ID = none ∧ r.ParentID = none) →
      ∃ e, build_sensors_loop rs acc = .error e := by
  induction rs with
  | nil =>
    intro acc h
    rcases h with ⟨r, hmem, _⟩
    exact absurd hmem (List.not_mem_nil r)
  | cons r0 rest ih =>
    intro acc h
    unfold build_sensors_loop
    rcases h with ⟨r, hmem, hID, hPID⟩
    rcases List.mem_cons.mp hmem with rfl | hmem2
    · have hk : recordKey r = .error "KeyError: ID" := by
        unfold recordKey
        rw [hPID, hID]
      rw [hk]
      exact ⟨_, rfl⟩
    · rcases hk : recordKey r0 with e | key
      · exact ⟨e, rfl⟩
      · show ∃ e, (match (if (lookupStation acc key).isSome then Except.ok acc
              else (newStation key r0).map (fun s => acc ++ [(key, s)])) with
            | Except.error e => Except.error e
            | Except.ok acc1 => build_sensors_loop rest (writeChannel acc1 key r0)) =
          Except.error e
        rcases hs : (if (lookupStation acc key).isSome then Except.ok acc
            else (newStation key r0).map (fun s => acc ++ [(key, s)])) with e | acc1
        · exact ⟨e, rfl⟩
        · exact ih _ ⟨r, hmem2, hID, hPID⟩

/-- Counterexample to C9 as stated: a batch holding one well-formed record
and one record lacking both ID and ParentID makes build_sensors raise
KeyError (modelled as an error result); the station entry of the well-formed
record is not returned — the malformed record is fatal to the whole poll. -/
theorem build_sensors_malformed_is_fatal :
    build_sensors [okRecord, badRecord] = .error "KeyError: ID" ∧
    (build_sensors [okRecord, badRecord]).isOk = false := by
  constructor <;> rfl

/-- C9 as amended: any batch containing a record that lacks both an ID and a
ParentID makes build_sensors raise KeyError — the record is not skipped, and
no station dictionary is returned for the batch. -/
theorem build_sensors_malformed_raises (rs : List RawRecord) (r : RawRecord)
    (hmem : r ∈ rs) (hID : r.ID = none) (hPID : r.ParentID = none) :
    ∃ e, build_sensors rs = .error e := by
  unfold build_sensors
  exact build_sensors_loop_error rs [] ⟨r, hmem, hID, hPID⟩

/-- Witness for C9 (amended): the concrete two-record batch. -/
theorem build_sensors_malformed_raises_witness :
    badRecord ∈ [okRecord, badRecord] ∧ badRecord.ID = none ∧
    badRecord.ParentID = none ∧
    ∃ e, build_sensors [okRecord, badRecord] = .error e :=
  ⟨by simp, rfl, rfl,
    build_sensors_malformed_raises [okRecord, badRecord] badRecord (by simp) rfl rfl⟩

/-! ### Reading update lemmas (claims C5, C8) -/

lemma setConfidence_getValue (r : Reading) (a : String) (c : Option String) (k : String) :
    (r.setConfidence a c).getValue k = r.getValue k := by
  rcases c with _ | s
  · rfl
  · simp only [Reading.setConfidence]
    split_ifs <;> rfl

lemma setConfidence_confidence_ne (r : Reading) (a : String) (c : Option String)
    (k : String) (hk : k ≠ a) : (r.setConfidence a c).confidence k = r.confidence k := by
  rcases c with _ | s
  · rfl
  · simp only [Reading.setConfidence]
    split_ifs <;> simp [hk]

lemma setConfidence_confidence_self (r : Reading) (a : String) (s : String)
    (hs : ¬s = "") : (r.setConfidence a (some s)).confidence a = some s := by
  simp only [Reading.setConfidence]
  rw [if_neg hs]
  simp

lemma setValue_getValue_ne (r : Reading) (attr : String) (v : Option ℚ)
    (c : Option String) (k : String) (hk : k ≠ attr) :
    (r.setValue attr v c).getValue k = r.getValue k := by
  unfold Reading.setValue
  rw [setConfidence_getValue]
  split_ifs <;> simp_all [Reading.getValue]

lemma setValue_confidence_ne (r : Reading) (attr : String) (v : Option ℚ)
    (c : Option String) (k : String) (hk : k ≠ attr) :
    (r.setValue attr v c).confidence k = r.confidence k := by
  unfold Reading.setValue
  rw [setConfidence_confidence_ne _ attr c k hk]
  split_ifs <;> rfl

lemma setValue_getValue_self (r : Reading) (attr : String) (hp : attr ∈ JSON_PROPERTIES)
    (v : Option ℚ) (c : Option String) : (r.setValue attr v c).getValue attr = v := by
  simp only [JSON_PROPERTIES, List.mem_cons, List.not_mem_nil, or_false] at hp
  rcases hp with rfl | rfl | rfl | rfl | rfl | rfl <;>
    · unfold Reading.setValue
      rw [setConfidence_getValue]
      simp [Reading.getValue]

lemma setValue_confidence_self (r : Reading) (attr : String) (v : Option ℚ) (s : String)
    (hs : ¬s = "") : (r.setValue attr v (some s)).confidence attr = some s := by
  unfold Reading.setValue
  exact setConfidence_confidence_self _ attr s hs

lemma singleChannelStep_getValue_ne (f : String → Option ℚ) (r : Reading) (p k : String)
    (hk : k ≠ p) : (singleChannelStep f r p).getValue k = r.getValue k := by
  unfold singleChannelStep
  rcases truthy (f p) with _ | a
  · exact setValue_getValue_ne r p none none k hk
  · exact setValue_getValue_ne r p _ _ k hk

lemma singleChannelStep_confidence_ne (f : String → Option ℚ) (r : Reading) (p k : String)
    (hk : k ≠ p) : (singleChannelStep f r p).confidence k = r.confidence k := by
  unfold singleChannelStep
  rcases truthy (f p) with _ | a
  · exact setValue_confidence_ne r p none none k hk
  · exact setValue_confidence_ne r p _ _ k hk

lemma foldl_single_ne (f : String → Option ℚ) (props : List String) (r : Reading)
    (k : String) (hk : k ∉ props) :
    ((props.foldl (singleChannelStep f) r).getValue k = r.getValue k) ∧
    ((props.foldl (singleChannelStep f) r).confidence k = r.confidence k) := by
  induction props generalizing r with
  | nil => exact ⟨rfl, rfl⟩
  | cons p rest ih =>
    have h1 : k ≠ p := fun h => hk (h ▸ List.mem_cons_self p rest)
    have h2 : k ∉ rest := fun h => hk (List.mem_cons_of_mem p h)
    rw [List.foldl_cons]
    rcases ih (singleChannelStep f r p) h2 with ⟨hv, hc⟩
    exact ⟨hv.trans (singleChannelStep_getValue_ne f r p k h1),
      hc.trans (singleChannelStep_confidence_ne f r p k h1)⟩

lemma singleChannelStep_at (f : String → Option ℚ) (r : Reading) (prop : String)
    (hp : prop ∈ JSON_PROPERTIES) (v : ℚ) (hv : truthy (f prop) = some v) :
    ((singleChannelStep f r prop).getValue prop = some (round1 v)) ∧
    ((singleChannelStep f r prop).confidence prop = some "good") := by
  unfold singleChannelStep
  rw [hv]
  exact ⟨setValue_getValue_self r prop hp _ _,
    setValue_confidence_self r prop _ "good" (by simp)⟩

lemma mergeSingleChannel_sets (f : String → Option ℚ) (prop : String)
    (hp : prop ∈ PM_PROPERTIES) (v : ℚ) (hv : truthy (f prop) = some v) :
    ((mergeSingleChannel f).getValue prop = some (round1 v)) ∧
    ((mergeSingleChannel f).confidence prop = some "good") := by
  simp only [PM_PROPERTIES, List.mem_cons, List.not_mem_nil, or_false] at hp
  unfold mergeSingleChannel
  rcases hp with rfl | rfl | rfl
  · rw [show JSON_PROPERTIES = ["pm1_0_atm"] ++
        ["pm2_5_atm", "pm10_0_atm", "humidity", "temp_f", "pressure"] from rfl,
      List.foldl_append]
    rcases foldl_single_ne f ["pm2_5_atm", "pm10_0_atm", "humidity", "temp_f", "pressure"]
      (List.foldl (singleChannelStep f) {} ["pm1_0_atm"]) "pm1_0_atm" (by simp)
      with ⟨hv2, hc2⟩
    rw [hv2, hc2]
    simp only [List.foldl_cons, List.foldl_nil]
    exact singleChannelStep_at f {} "pm1_0_atm" (by simp [JSON_PROPERTIES]) v hv
  · rw [show JSON_PROPERTIES = ["pm1_0_atm", "pm2_5_atm"] ++
        ["pm10_0_atm", "humidity", "temp_f", "pressure"] from rfl,
      List.foldl_append]
    rcases foldl_single_ne f ["pm10_0_atm", "humidity", "temp_f", "pressure"]
      (List.foldl (singleChannelStep f) {} ["pm1_0_atm", "pm2_5_atm"]) "pm2_5_atm"
      (by simp) with ⟨hv2, hc2⟩
    rw [hv2, hc2]
    simp only [List.foldl_cons, List.foldl_nil]
    exact singleChannelStep_at f _ "pm2_5_atm" (by simp [JSON_PROPERTIES]) v hv
  · rw [show JSON_PROPERTIES = ["pm1_0_atm", "pm2_5_atm", "pm10_0_atm"] ++
        ["humidity", "temp_f", "pressure"] from rfl, List.foldl_append]
    rcases foldl_single_ne f ["humidity", "temp_f", "pressure"]
      (List.foldl (singleChannelStep f) {} ["pm1_0_atm", "pm2_5_atm", "pm10_0_atm"])
      "pm10_0_atm" (by simp) with ⟨hv2, hc2⟩
    rw [hv2, hc2]
    simp only [List.foldl_cons, List.foldl_nil]
    exact singleChannelStep_at f _ "pm10_0_atm" (by simp [JSON_PROPERTIES]) v hv

lemma apply_corrections_preserves (r : Reading) :
    (apply_corrections r).pm1_0_atm = r.pm1_0_atm ∧
    (apply_corrections r).pm2_5_atm = r.pm2_5_atm ∧
    (apply_corrections r).pm10_0_atm = r.pm10_0_atm ∧
    (apply_corrections r).confidence = r.confidence := by
  unfold apply_corrections
  rcases h1 : truthy r.temp_f with _ | t <;> simp only [h1] <;>
    rcases truthy _ with _ | h <;> exact ⟨rfl, rfl, rfl, rfl⟩

lemma apply_corrections_getValue_pm (r : Reading) (prop : String)
    (hp : prop ∈ PM_PROPERTIES) :
    (apply_corrections r).getValue prop = r.getValue prop := by
  simp only [PM_PROPERTIES, List.mem_cons, List.not_mem_nil, or_false] at hp
  rcases hp with rfl | rfl | rfl <;>
    simp [Reading.getValue, (apply_corrections_preserves r).1,
      (apply_corrections_preserves r).2.1, (apply_corrections_preserves r).2.2.1]

/-! ### Single-channel confidence (claim C5) -/

/-- Counterexample to C5 as stated: for a station with no channel-B record,
calculate_sensor_values labels a merged particulate value "good", not
"single" (and a present-but-zero channel-A value is dropped to None rather
than fused). -/
theorem single_channel_not_single :
    (calculate_sensor_values_one [] soloSensor).1.confidence "pm2_5_atm" = some "good" ∧
    some "good" ≠ some "single" ∧
    (calculate_sensor_values_one [] soloSensor).1.pm1_0_atm = none := by
  have hboth : both_channels_have_data soloSensor = false := by
    simp [both_channels_have_data, hasChannelData, soloSensor]
  have hone : calculate_sensor_values_one [] soloSensor =
      (apply_corrections (mergeSingleChannel soloChanA), []) := by
    unfold calculate_sensor_values_one
    rw [hboth]
    simp [show soloSensor.chanA = some soloChanA from rfl]
  rcases mergeSingleChannel_sets soloChanA "pm2_5_atm" (by simp [PM_PROPERTIES]) 30
    (by simp [soloChanA, truthy]) with ⟨hv, hc⟩
  refine ⟨?_, by simp, ?_⟩
  · rw [hone]
    show (apply_corrections (mergeSingleChannel soloChanA)).confidence "pm2_5_atm" =
      some "good"
    rw [(apply_corrections_preserves (mergeSingleChannel soloChanA)).2.2.2]
    exact hc
  · rw [hone]
    show (apply_corrections (mergeSingleChannel soloChanA)).pm1_0_atm = none
    rw [(apply_corrections_preserves (mergeSingleChannel soloChanA)).1]
    have h0 : truthy (soloChanA "pm1_0_atm") = none := by simp [soloChanA, truthy]
    have hgv : (mergeSingleChannel soloChanA).getValue "pm1_0_atm" = none := by
      unfold mergeSingleChannel
      rw [show JSON_PROPERTIES = ["pm1_0_atm"] ++
          ["pm2_5_atm", "pm10_0_atm", "humidity", "temp_f", "pressure"] from rfl,
        List.foldl_append]
      rw [(foldl_single_ne soloChanA _ _ "pm1_0_atm" (by simp)).1]
      simp only [List.foldl_cons, List.foldl_nil]
      unfold singleChannelStep
      rw [h0]
      exact setValue_getValue_self _ "pm1_0_atm" (by simp [JSON_PROPERTIES]) none none
    simpa [Reading.getValue] using hgv

/-- C5 as amended: for a station with no channel-B record, every particulate
metric with a truthy (present, nonzero) channel-A value is fused by
calculate_sensor_values to round(A, 1) with confidence label "good" (the
label "single" is used only in dual-channel mode when channel B lacks the
metric); the warned list is untouched. -/
theorem single_channel_confidence_good (warned : List String) (s : PASensor)
    (f : String → Option ℚ) (hA : s.chanA = some f) (hB : s.chanB = none)
    (prop : String) (hp : prop ∈ PM_PROPERTIES) (v : ℚ) (hv : f prop = some v)
    (hnz : v ≠ 0) :
    ((calculate_sensor_values_one warned s).1.getValue prop = some (round1 v)) ∧
    ((calculate_sensor_values_one warned s).1.confidence prop = some "good") ∧
    ((calculate_sensor_values_one warned s).2 = warned) := by
  have hboth : both_channels_have_data s = false := by
    unfold both_channels_have_data hasChannelData
    rw [hB]
    simp
  have htruthy : truthy (f prop) = some v := by simp [truthy, hv, hnz]
  have hone : calculate_sensor_values_one warned s =
      (apply_corrections (mergeSingleChannel f), warned) := by
    unfold calculate_sensor_values_one
    simp [hboth, hA]
  rw [hone]
  rcases mergeSingleChannel_sets f prop hp v htruthy with ⟨hm1, hm2⟩
  refine ⟨?_, ?_, rfl⟩
  · rw [apply_corrections_getValue_pm _ prop hp, hm1]
  · rw [(apply_corrections_preserves (mergeSingleChannel f)).2.2.2, hm2]

/-- Witness for C5 (amended): the concrete single-channel station with
pm2_5_atm = 30 gets confidence "good". -/
theorem single_channel_confidence_good_witness :
    soloSensor.chanA = some soloChanA ∧ soloSensor.chanB = none ∧
    ("pm2_5_atm" ∈ PM_PROPERTIES) ∧ soloChanA "pm2_5_atm" = some 30 ∧
    ((30 : ℚ) ≠ 0) ∧
    (calculate_sensor_values_one [] soloSensor).1.confidence "pm2_5_atm" =
      some "good" := by
  have h := single_channel_confidence_good [] soloSensor soloChanA rfl rfl
    "pm2_5_atm" (by simp [PM_PROPERTIES]) 30 (by simp [soloChanA]) (by norm_num)
  exact ⟨rfl, rfl, by simp [PM_PROPERTIES], by simp [soloChanA], by norm_num, h.2.1⟩

/-! ### Further Reading projection lemmas and dual-channel lemmas (claim C8) -/

lemma setConfidence_preserves (r : Reading) (a : String) (c : Option String) :
    ((r.setConfidence a c).humidity = r.humidity) ∧
    ((r.setConfidence a c).pm10_0_atm = r.pm10_0_atm) ∧
    ((r.setConfidence a c).pm1_0_atm = r.pm1_0_atm) ∧
    ((r.setConfidence a c).pm2_5_atm = r.pm2_5_atm) ∧
    ((r.setConfidence a c).pm2_5_atm_aqi = r.pm2_5_atm_aqi) ∧
    ((r.setConfidence a c).pm2_5_atm_aqi_raw = r.pm2_5_atm_aqi_raw) ∧
    ((r.setConfidence a c).pm2_5_cf_1 = r.pm2_5_cf_1) ∧
    ((r.setConfidence a c).pressure = r.pressure) ∧
    ((r.setConfidence a c).temp_f = r.temp_f) := by
  rcases c with _ | s
  · exact ⟨rfl, rfl, rfl, rfl, rfl, rfl, rfl, rfl, rfl⟩
  · simp only [Reading.setConfidence]
    split_ifs <;> exact ⟨rfl, rfl, rfl, rfl, rfl, rfl, rfl, rfl, rfl⟩

lemma setValue_pm2_5_cf_1 (r : Reading) (attr : String) (v : Option ℚ)
    (c : Option String) : (r.setValue attr v c).pm2_5_cf_1 = r.pm2_5_cf_1 := by
  unfold Reading.setValue
  refine ((setConfidence_preserves _ attr c).2.2.2.2.2.2.1).trans ?_
  split_ifs <;> rfl

lemma setAqiValue_preserves (r : Reading) (attr : String) (v : Option ℤ)
    (c : Option String) :
    ((r.setAqiValue attr v c).humidity = r.humidity) ∧
    ((r.setAqiValue attr v c).pm2_5_atm = r.pm2_5_atm) ∧
    ((r.setAqiValue attr v c).pm2_5_cf_1 = r.pm2_5_cf_1) ∧
    ((r.setAqiValue attr v c).temp_f = r.temp_f) := by
  unfold Reading.setAqiValue
  refine ⟨((setConfidence_preserves _ attr c).1).trans ?_,
    ((setConfidence_preserves _ attr c).2.2.2.1).trans ?_,
    ((setConfidence_preserves _ attr c).2.2.2.2.2.2.1).trans ?_,
    ((setConfidence_preserves _ attr c).2.2.2.2.2.2.2.2).trans ?_⟩ <;>
    split_ifs <;> rfl

lemma setAqiValue_raw_self (r : Reading) (v : Option ℤ) (c : Option String) :
    (r.setAqiValue "pm2_5_atm_aqi_raw" v c).pm2_5_atm_aqi_raw = v := by
  unfold Reading.setAqiValue
  refine ((setConfidence_preserves _ _ c).2.2.2.2.2.1).trans ?_
  simp

lemma setAqiValue_confidence_ne (r : Reading) (attr : String) (v : Option ℤ)
    (c : Option String) (k : String) (hk : k ≠ attr) :
    (r.setAqiValue attr v c).confidence k = r.confidence k := by
  unfold Reading.setAqiValue
  rw [setConfidence_confidence_ne _ attr c k hk]
  split_ifs <;> rfl

lemma apply_corrections_more (r : Reading) :
    ((apply_corrections r).pm2_5_cf_1 = r.pm2_5_cf_1) ∧
    ((apply_corrections r).pm2_5_atm_aqi_raw = r.pm2_5_atm_aqi_raw) := by
  unfold apply_corrections
  rcases h1 : truthy r.temp_f with _ | t <;> simp only [h1] <;>
    rcases truthy _ with _ | h <;> exact ⟨rfl, rfl⟩

lemma dualChannelStep_ne (sid : String) (fA fB : String → Option ℚ)
    (acc : Reading × List String) (p k : String) (hk : k ≠ p) :
    ((dualChannelStep sid fA fB acc p).1.getValue k = acc.1.getValue k) ∧
    ((dualChannelStep sid fA fB acc p).1.confidence k = acc.1.confidence k) := by
  unfold dualChannelStep
  rcases truthy (fA p) with _ | a
  · exact ⟨setValue_getValue_ne acc.1 p none none k hk,
      setValue_confidence_ne acc.1 p none none k hk⟩
  · rcases truthy (fB p) with _ | b
    · exact ⟨setValue_getValue_ne acc.1 p (some (round1 a)) (some "single") k hk,
        setValue_confidence_ne acc.1 p (some (round1 a)) (some "single") k hk⟩
    · exact ⟨setValue_getValue_ne acc.1 p (get_pm_reading acc.2 sid p a b).value
          (some (get_pm_reading acc.2 sid p a b).confidence) k hk,
        setValue_confidence_ne acc.1 p (get_pm_reading acc.2 sid p a b).value
          (some (get_pm_reading acc.2 sid p a b).confidence) k hk⟩

lemma dualChannelStep_cf1 (sid : String) (fA fB : String → Option ℚ)
    (acc : Reading × List String) (p : String) :
    (dualChannelStep sid fA fB acc p).1.pm2_5_cf_1 = acc.1.pm2_5_cf_1 := by
  unfold dualChannelStep
  rcases truthy (fA p) with _ | a
  · exact setValue_pm2_5_cf_1 acc.1 p none none
  · rcases truthy (fB p) with _ | b
    · exact setValue_pm2_5_cf_1 acc.1 p (some (round1 a)) (some "single")
    · exact setValue_pm2_5_cf_1 acc.1 p (get_pm_reading acc.2 sid p a b).value
        (some (get_pm_reading acc.2 sid p a b).confidence)

lemma foldl_dual_ne (sid : String) (fA fB : String → Option ℚ) (props : List String)
    (acc : Reading × List String) (k : String) (hk : k ∉ props) :
    ((props.foldl (dualChannelStep sid fA fB) acc).1.getValue k = acc.1.getValue k) ∧
    ((props.foldl (dualChannelStep sid fA fB) acc).1.confidence k =
      acc.1.confidence k) := by
  induction props generalizing acc with
  | nil => exact ⟨rfl, rfl⟩
  | cons p rest ih =>
    have h1 : k ≠ p := fun h => hk (h ▸ List.mem_cons_self p rest)
    have h2 : k ∉ rest := fun h => hk (List.mem_cons_of_mem p h)
    rw [List.foldl_cons]
    rcases ih (dualChannelStep sid fA fB acc p) h2 with ⟨hv, hc⟩
    exact ⟨hv.trans (dualChannelStep_ne sid fA fB acc p k h1).1,
      hc.trans (dualChannelStep_ne sid fA fB acc p k h1).2⟩

lemma foldl_dual_cf1 (sid : String) (fA fB : String → Option ℚ) (props : List String)
    (acc : Reading × List String) :
    (props.foldl (dualChannelStep sid fA fB) acc).1.pm2_5_cf_1 = acc.1.pm2_5_cf_1 := by
  induction props generalizing acc with
  | nil => rfl
  | cons p rest ih =>
    rw [List.foldl_cons]
    exact (ih (dualChannelStep sid fA fB acc p)).trans
      (dualChannelStep_cf1 sid fA fB acc p)

lemma dualChannelStep_at_both (sid : String) (fA fB : String → Option ℚ)
    (acc : Reading × List String) (prop : String) (hp : prop ∈ JSON_PROPERTIES)
    (a b : ℚ) (ha : truthy (fA prop) = some a) (hb : truthy (fB prop) = some b)
    (hc : ¬(get_pm_reading acc.2 sid prop a b).confidence = "") :
    ((dualChannelStep sid fA fB acc prop).1.getValue prop =
      (get_pm_reading acc.2 sid prop a b).value) ∧
    ((dualChannelStep sid fA fB acc prop).1.confidence prop =
      some (get_pm_reading acc.2 sid prop a b).confidence) := by
  unfold dualChannelStep
  rw [ha, hb]
  exact ⟨setValue_getValue_self acc.1 prop hp (get_pm_reading acc.2 sid prop a b).value
      (some (get_pm_reading acc.2 sid prop a b).confidence),
    setValue_confidence_self acc.1 prop (get_pm_reading acc.2 sid prop a b).value
      (get_pm_reading acc.2 sid prop a b).confidence hc⟩

lemma dualChannelStep_at_single (sid : String) (fA fB : String → Option ℚ)
    (acc : Reading × List String) (prop : String) (hp : prop ∈ JSON_PROPERTIES)
    (a : ℚ) (ha : truthy (fA prop) = some a) (hb : truthy (fB prop) = none) :
    ((dualChannelStep sid fA fB acc prop).1.getValue prop = some (round1 a)) ∧
    ((dualChannelStep sid fA fB acc prop).1.confidence prop = some "single") := by
  unfold dualChannelStep
  rw [ha, hb]
  exact ⟨setValue_getValue_self acc.1 prop hp (some (round1 a)) (some "single"),
    setValue_confidence_self acc.1 prop (some (round1 a)) "single" (by simp)⟩

/-! ### End-to-end scenario (claim C8) -/

/-- Counterexample to C8 as stated: the claim pins the instant AQI of the
scenario at calculate_aqi(31.0, 'pm2_5') = 90, but the interpolation gives
round(49/23.3 * (31.0-12.1) + 51) = round(90.7468...) = 91. -/
theorem scenario_aqi_is_91_not_90 :
    calc_aqi 31 "pm2_5" = some 91 ∧ some (91 : ℤ) ≠ some (90 : ℤ) := by
  refine ⟨?_, by simp⟩
  norm_num [calc_aqi, AQI_BREAKPOINTS, pm25Breakpoints, findBreakpoint, pyRound]

/-- C8 as amended: on the scenario batch for station "100" (channel A:
pm2_5_atm 30.0, pm1_0_atm 10.0, pm10_0_atm 40.0, humidity 45, temp_f 70;
linked channel B: pm2_5_atm 32.0, pm1_0_atm 11.0, pm10_0_atm 41.0) the
pipeline produces fused pm2_5_atm = 31.0 with confidence "good", corrected
humidity = 49, corrected temp_f = 62, and instant AQI
calculate_aqi(31.0, 'pm2_5') = 91 (not 90). -/
theorem scenario_pipeline_output :
    ∃ r, scenarioResult = some r ∧ r.pm2_5_atm = some 31 ∧
      r.confidence "pm2_5_atm" = some "good" ∧ r.humidity = some 49 ∧
      r.temp_f = some 62 ∧ r.pm2_5_atm_aqi_raw = some 91 := by
  have habs : |(30 : ℚ) - 32| < 45 := by
    rw [show (30 : ℚ) - 32 = -2 by norm_num, abs_neg]
    norm_num [abs_of_nonneg]
  -- the channel dictionaries of station "100"
  have hA25 : truthy (recordChannelData recordA "pm2_5_atm") = some 30 := by
    simp [recordChannelData, recordA, JSON_PROPERTIES, truthy]
  have hB25 : truthy (recordChannelData recordB "pm2_5_atm") = some 32 := by
    simp [recordChannelData, recordB, JSON_PROPERTIES, truthy]
  have hAhum : truthy (recordChannelData recordA "humidity") = some 45 := by
    simp [recordChannelData, recordA, JSON_PROPERTIES, truthy]
  have hBhum : truthy (recordChannelData recordB "humidity") = none := by
    simp [recordChannelData, recordB, JSON_PROPERTIES, truthy]
  have hAtemp : truthy (recordChannelData recordA "temp_f") = some 70 := by
    simp [recordChannelData, recordA, JSON_PROPERTIES, truthy]
  have hBtemp : truthy (recordChannelData recordB "temp_f") = none := by
    simp [recordChannelData, recordB, JSON_PROPERTIES, truthy]
  -- the pm2_5 merge, for any warned-list state
  have hpm : ∀ w, (get_pm_reading w "100" "pm2_5_atm" 30 32).value = some 31 ∧
      (get_pm_reading w "100" "pm2_5_atm" 30 32).confidence = "good" := by
    intro w
    have hmem : ¬("pm2_5_atm" ∉ PM_PROPERTIES) :=
      not_not_intro (by simp [PM_PROPERTIES])
    have hvalid : (30 : ℚ) < MAX_PM_READING ∧ (32 : ℚ) < MAX_PM_READING := by
      norm_num [MAX_PM_READING]
    unfold get_pm_reading
    rw [if_neg hmem, if_pos hvalid]
    constructor
    · show some (round1 ((30 + 32) / 2)) = some 31
      norm_num [round1, roundTo, pyRound]
    · show (if |(30 : ℚ) - 32| < 45 then "good" else "questionable") = "good"
      rw [if_pos habs]
  -- the merged reading
  set fA : String → Option ℚ := recordChannelData recordA with hfA
  set fB : String → Option ℚ := recordChannelData recordB with hfB
  set M : Reading × List String := mergeDualChannel [] "100" fA fB with hM
  have hM25 : M.1.getValue "pm2_5_atm" = some 31 ∧
      M.1.confidence "pm2_5_atm" = some "good" := by
    rw [hM]
    unfold mergeDualChannel
    rw [show JSON_PROPERTIES = ["pm1_0_atm", "pm2_5_atm"] ++
        ["pm10_0_atm", "humidity", "temp_f", "pressure"] from rfl, List.foldl_append]
    rw [(foldl_dual_ne "100" fA fB _ _ "pm2_5_atm" (by simp)).1,
      (foldl_dual_ne "100" fA fB _ _ "pm2_5_atm" (by simp)).2]
    simp only [List.foldl_cons, List.foldl_nil]
    rcases dualChannelStep_at_both "100" fA fB
      (dualChannelStep "100" fA fB (({} : Reading), []) "pm1_0_atm") "pm2_5_atm"
      (by simp [JSON_PROPERTIES]) 30 32 hA25 hB25
      (by rw [(hpm _).2]; simp) with ⟨hv, hc⟩
    rw [hv, hc, (hpm _).1, (hpm _).2]
    exact ⟨rfl, rfl⟩
  have hMhum : M.1.getValue "humidity" = some 45 := by
    rw [hM]
    unfold mergeDualChannel
    rw [show JSON_PROPERTIES = ["pm1_0_atm", "pm2_5_atm", "pm10_0_atm", "humidity"] ++
        ["temp_f", "pressure"] from rfl, List.foldl_append]
    rw [(foldl_dual_ne "100" fA fB _ _ "humidity" (by simp)).1]
    simp only [List.foldl_cons, List.foldl_nil]
    rw [(dualChannelStep_at_single "100" fA fB _ "humidity"
      (by simp [JSON_PROPERTIES]) 45 hAhum hBhum).1]
    norm_num [round1, roundTo, pyRound]
  have hMtemp : M.1.getValue "temp_f" = some 70 := by
    rw [hM]
    unfold mergeDualChannel
    rw [show JSON_PROPERTIES =
        ["pm1_0_atm", "pm2_5_atm", "pm10_0_atm", "humidity", "temp_f"] ++
        ["pressure"] from rfl, List.foldl_append]
    rw [(foldl_dual_ne "100" fA fB _ _ "temp_f" (by simp)).1]
    simp only [List.foldl_cons, List.foldl_nil]
    rw [(dualChannelStep_at_single "100" fA fB _ "temp_f"
      (by simp [JSON_PROPERTIES]) 70 hAtemp hBtemp).1]
    norm_num [round1, roundTo, pyRound]
  have hMcf1 : M.1.pm2_5_cf_1 = none := by
    rw [hM]
    unfold mergeDualChannel
    rw [foldl_dual_cf1]
  -- field forms
  have hM25f : M.1.pm2_5_atm = some 31 := by simpa [Reading.getValue] using hM25.1
  have hMhumf : M.1.humidity = some 45 := by simpa [Reading.getValue] using hMhum
  have hMtempf : M.1.temp_f = some 70 := by simpa [Reading.getValue] using hMtemp
  -- corrections
  set R : Reading := apply_corrections M.1 with hR
  have hRtemp : R.temp_f = some 62 := by
    rw [hR, apply_corrections_temp_eq, hMtempf]
    norm_num [truthy]
  have hRhum : R.humidity = some 49 := by
    rw [hR, apply_corrections_hum_eq, hMhumf]
    norm_num [truthy]
  have hRpm : R.pm2_5_atm = some 31 := by
    rw [hR, (apply_corrections_preserves M.1).2.1, hM25f]
  have hRconf : R.confidence "pm2_5_atm" = some "good" := by
    rw [hR, (apply_corrections_preserves M.1).2.2.2, hM25.2]
  have hRcf1 : R.pm2_5_cf_1 = none := by
    rw [hR, (apply_corrections_more M.1).1, hMcf1]
  -- the built station
  set S : PASensor := { pa_sensor_id := "100", label := "None", last_seen := 0, last_update := 0, chanA := some fA, chanB := some fB } with hS
  have hbuild : build_sensors [recordA, recordB] = .ok [("100", S)] := by
    rw [hS, hfA, hfB]
    rfl
  have hone : calculate_sensor_values_one [] S = (R, M.2) := by
    have hboth : both_channels_have_data S = true := by
      rw [hS]
      simp [both_channels_have_data, hasChannelData, JSON_PROPERTIES, hfA, hfB,
        recordChannelData, recordA, recordB]
    unfold calculate_sensor_values_one
    rw [hboth]
    simp only [if_pos, Option.getD_some]
  have hsv : calculate_sensor_values [("100", S)] [] = ([("100", R)], M.2) := by
    unfold calculate_sensor_values
    simp only [List.foldl_cons, List.foldl_nil, hone, List.nil_append]
  -- AQI stage
  have hcalc31 : calc_aqi 31 "pm2_5" = some 91 := by
    norm_num [calc_aqi, AQI_BREAKPOINTS, pm25Breakpoints, findBreakpoint, pyRound]
  set r1 : Reading := R.setAqiValue "pm2_5_atm_aqi_raw" (some 91) (some "good") with hr1
  have haqi : add_aqi_one 0 create_epa_value_cache "100" R =
      (r1, create_epa_value_cache) := by
    have hconf : R.get_confidence "pm2_5_atm" = "good" := by
      unfold Reading.get_confidence
      rw [hRconf]
      rfl
    have htr : truthy R.pm2_5_atm = some 31 := by
      rw [hRpm]
      norm_num [truthy]
    unfold add_aqi_one
    rw [hconf, htr]
    show add_aqi_epa_part 0 create_epa_value_cache "100" "good"
      (R.setAqiValue "pm2_5_atm_aqi_raw" (calc_aqi 31 "pm2_5") (some "good")) =
      (r1, create_epa_value_cache)
    rw [hcalc31, ← hr1]
    have hcf : r1.pm2_5_cf_1 = none := by
      rw [hr1]
      exact ((setAqiValue_preserves R "pm2_5_atm_aqi_raw" (some 91)
        (some "good")).2.2.1).trans hRcf1
    unfold add_aqi_epa_part
    rw [hcf]
  have hadd : add_aqi_calculations 0 [("100", R)] create_epa_value_cache =
      ([("100", r1)], create_epa_value_cache) := by
    unfold add_aqi_calculations
    simp only [List.foldl_cons, List.foldl_nil, haqi, List.nil_append]
  refine ⟨r1, ?_, ?_, ?_, ?_, ?_, ?_⟩
  · unfold scenarioResult
    rw [hbuild]
    show lookupReading (add_aqi_calculations 0
      (calculate_sensor_values [("100", S)] []).1 create_epa_value_cache).1 "100" =
      some r1
    rw [hsv]
    show lookupReading (add_aqi_calculations 0 [("100", R)]
      create_epa_value_cache).1 "100" = some r1
    rw [hadd]
    simp [lookupReading]
  · rw [hr1, (setAqiValue_preserves R "pm2_5_atm_aqi_raw" (some 91) (some "good")).2.1,
      hRpm]
  · rw [hr1, setAqiValue_confidence_ne R "pm2_5_atm_aqi_raw" (some 91) (some "good")
      "pm2_5_atm" (by simp), hRconf]
  · rw [hr1, (setAqiValue_preserves R "pm2_5_atm_aqi_raw" (some 91) (some "good")).1,
      hRhum]
  · rw [hr1, (setAqiValue_preserves R "pm2_5_atm_aqi_raw" (some 91) (some "good")).2.2.2,
      hRtemp]
  · rw [hr1, setAqiValue_raw_self R (some 91) (some "good")]

end PurpleAir
